import Mathlib

/-!
Shallow embedding of `tensorly/utils/preprocessing.py` (the `std` reduction
function and the `ProperCenterAndScale` estimator), over exact rational
arithmetic.  Tensors are a shape together with a row-major flat data list.
Python exceptions are modelled by the `Err` type and `Except`; a method that
mutates `self` is embedded as a function that returns the updated object
state, with mutations applied exactly up to the point where an exception is
raised (CPython semantics: attribute assignments performed before a raise
persist).
-/

/-- Python exception classes that the embedded code can raise. -/
inductive Err
  | typeError
  | valueError
  | assertionError
  | unboundLocalError
  | attributeError
deriving DecidableEq, Repr

/-- A tensor: shape and row-major flattened data, rationals standing in for
the backend's floats (the claims are stated over exact arithmetic). -/
structure Tensor where
  shape : List Nat
  data : List ℚ
deriving DecidableEq, Repr

/-- All multi-indices of a shape, in row-major (lexicographic) order. -/
def allIdx : List Nat → List (List Nat)
  | [] => [[]]
  | d :: ds => ((List.range d).map (fun i => (allIdx ds).map (fun ix => i :: ix))).flatten

/-- Row-major flattening of a multi-index. -/
def flatIdx : List Nat → List Nat → Nat
  | _ :: ds, i :: is => i * ds.prod + flatIdx ds is
  | _, _ => 0

/-- Read a tensor at a multi-index of a (possibly larger, broadcast) result
shape: numpy broadcasting semantics — extra leading coordinates are dropped
and coordinates over length-1 dimensions are clamped to 0. -/
def Tensor.read (t : Tensor) (ix : List Nat) : ℚ :=
  let ix2 := ix.drop (ix.length - t.shape.length)
  let ix3 := (t.shape.zip ix2).map (fun p => if p.1 == 1 then 0 else p.2)
  t.data.getD (flatIdx t.shape ix3) 0

/-- Numpy broadcast of two shapes (align right; dimensions must match or be
1), or `none` when the shapes are incompatible. -/
def broadcastShape (a b : List Nat) : Option (List Nat) :=
  let n := max a.length b.length
  let a2 := List.replicate (n - a.length) 1 ++ a
  let b2 := List.replicate (n - b.length) 1 ++ b
  if (a2.zip b2).all (fun p => p.1 == p.2 || p.1 == 1 || p.2 == 1) then
    some ((a2.zip b2).map (fun p => max p.1 p.2))
  else
    none

/-- Elementwise binary operation with numpy broadcasting; a shape mismatch is
the backend's ValueError. -/
def ewise (op : ℚ → ℚ → ℚ) (a b : Tensor) : Except Err Tensor :=
  match broadcastShape a.shape b.shape with
  | some sh => Except.ok ⟨sh, (allIdx sh).map (fun ix => op (a.read ix) (b.read ix))⟩
  | none => Except.error Err.valueError

/-- The backend's `T.mean(X, axis=axis, keepdims=True)`: arithmetic mean over
one axis, that axis kept with length 1. -/
def meanAxis (t : Tensor) (axis : Nat) : Tensor :=
  let n := t.shape.getD axis 1
  let sh := t.shape.set axis 1
  ⟨sh, (allIdx sh).map (fun ix =>
     ((List.range n).foldl (fun acc k => acc + t.read (ix.set axis k)) 0) / (n : ℚ))⟩

/-- The `axis` argument of `std`: `None`, a single integer, or an iterable of
integers (axis indices, taken non-negative). -/
inductive AxisArg
  | none
  | nat (n : Nat)
  | list (l : List Nat)
deriving DecidableEq, Repr

/-- Axis normalisation in `std` (preprocessing.py lines 21-24): `None` becomes
`list(range(ndim))`, a non-iterable becomes a singleton list, an iterable is
used as given. -/
def stdAxisList (ndim : Nat) (axis : AxisArg) : List Nat :=
  match axis with
  | AxisArg.none => List.range ndim
  | AxisArg.nat n => [n]
  | AxisArg.list l => l

/-- The degrees-of-freedom computation of `std` (preprocessing.py lines
26-30): `reduce_axes = (i for i in range(len(shape)) if i in axis)`, then
`dofs` is the product of `shape[axis]` over those axes, minus `ddof`.  The
membership test `i in axis` makes each in-range index count at most once,
whatever its multiplicity in `axis`. -/
def stdDofs (shape : List Nat) (axisList : List Nat) (ddof : Int) : Int :=
  (((List.range shape.length).filter (fun i => i ∈ axisList)).foldl
    (fun acc i => acc * ((shape.getD i 0 : Nat) : Int)) 1) - ddof

/-- `std(tensor, axis=None, keepdims=False, ddof=0)` (preprocessing.py lines
13-32).  After normalising `axis` and computing `dofs`, line 32 evaluates
`T.norm(tensor - T.mean) / sqrt(dofs)`.  The left operand is evaluated first
and subtracts the backend's `mean` *function object* itself (not a call of
it) from the tensor, which raises TypeError for every input, before `sqrt`,
`dofs` or `keepdims` can have any effect. -/
def std (tensor : Tensor) (axis : AxisArg) (keepdims : Bool) (ddof : Int) :
    Except Err Tensor :=
  let shape := tensor.shape
  let axes := stdAxisList shape.length axis
  let _dofs := stdDofs shape axes ddof
  Except.error Err.typeError

example : stdDofs [5, 6, 7] [0, 0] 0 = 5 := by decide
example : stdDofs [5, 6, 7] [0, 1] 1 = 29 := by decide
example : std ⟨[2], [0, 1]⟩ AxisArg.none false 0 = Except.error Err.typeError := rfl

/-- A `center_across` / `scale_within` constructor argument: a single axis
index or a sized iterable (list/tuple) of axis indices. -/
inductive AxisSpec
  | single (n : Nat)
  | iter (l : List Nat)
deriving DecidableEq, Repr

/-- The `scale_weight` constructor argument, resolved at fit time to one of
the closed alternatives (preprocessing.py lines 150-155). -/
inductive ScaleWeight
  | std
  | norm
  | custom
deriving DecidableEq, Repr

/-- The `ProperCenterAndScale` object: the constructor arguments together
with the fitted attributes, which are `none` while the attribute has never
been assigned (accessing it then is an AttributeError). -/
structure ProperCenterAndScale where
  center_across : AxisSpec
  scale_within : AxisSpec
  scale_weight : ScaleWeight
  allow_problematic_scaling : Bool
  data_shape_ : Option (List Nat)
  offsets_ : Option (List (Nat × Tensor))
  scales_ : Option (List Tensor)
deriving DecidableEq, Repr

/-- `ProperCenterAndScale.fit` (preprocessing.py lines 131-166), returning
the post-call object state and the exception raised, if any.

* Non-iterable `center_across` (line 137): `center_across = {center_across}`
  reads the still-unassigned local `center_across` on the right-hand side,
  so the call raises UnboundLocalError before touching any attribute.
* Iterable `center_across` (lines 133-135): deduplicate as a set and assert
  the set has the input's length; a duplicated index fails the assertion
  before `data_shape_` or `offsets_` is assigned.
* Lines 138-144: `data_shape_` is assigned, then the in-range assertion runs,
  then `offsets_` is assigned from per-axis means of X.
* Scale phase (lines 146-164): whether `scale_within` is iterable or not, the
  local `scale_within` is read before assignment (`[scale_within]` on line
  148, or the comprehension over `scale_within` on line 157), raising
  UnboundLocalError; `scales_` is never assigned and keeps its prior value. -/
def ProperCenterAndScale.fit (o : ProperCenterAndScale) (X : Tensor) :
    ProperCenterAndScale × Option Err :=
  match o.center_across with
  | AxisSpec.single _ => (o, some Err.unboundLocalError)
  | AxisSpec.iter l =>
    let ca := l.dedup
    if ca.length = l.length then
      let ndim := X.shape.length
      let o1 := { o with data_shape_ := some X.shape }
      if ca.all (fun a => decide (a < ndim)) then
        let o2 := { o1 with offsets_ := some (ca.map (fun ax => (ax, meanAxis X ax))) }
        (o2, some Err.unboundLocalError)
      else
        (o1, some Err.assertionError)
    else
      (o, some Err.assertionError)

/-- `ProperCenterAndScale._check_center_compatibility` (lines 168-182).  For
each stored offset, the shapes of `X` and of the offset are filtered by the
comparison `s != axis` — the *value* of each dimension against the axis
index, not its position — and compared. -/
def ProperCenterAndScale.check_center_compatibility
    (o : ProperCenterAndScale) (X : Tensor) : Except Err Bool :=
  match o.offsets_ with
  | none => Except.error Err.attributeError
  | some offs =>
    Except.ok (offs.all (fun p =>
      X.shape.filter (fun s => s != p.1) == p.2.shape.filter (fun s => s != p.1)))

/-- `ProperCenterAndScale._check_scale_compatibility` (lines 184-194).  Both
branches read the local `scale_within` before it is ever assigned (`
[scale_within]` on line 188 when `self.scale_within` is not iterable, and the
`for axis in scale_within` loop on line 191 when it is), so every call raises
UnboundLocalError. -/
def ProperCenterAndScale.check_scale_compatibility
    (o : ProperCenterAndScale) (X : Tensor) : Except Err Bool :=
  match o.scale_within with
  | AxisSpec.single _ => Except.error Err.unboundLocalError
  | AxisSpec.iter _ => Except.error Err.unboundLocalError

/-- The offset-subtraction loop of `transform` (lines 201-202), iterating
over `self.offsets_.values()` in insertion order. -/
def subOffsets (offs : List (Nat × Tensor)) (X : Tensor) : Except Err Tensor :=
  match offs with
  | [] => Except.ok X
  | p :: rest =>
    match ewise (fun a b => a - b) X p.2 with
    | Except.ok X2 => subOffsets rest X2
    | Except.error e => Except.error e

/-- The scale-division loop of `transform` (lines 204-205). -/
def divScales (scales : List Tensor) (X : Tensor) : Except Err Tensor :=
  match scales with
  | [] => Except.ok X
  | sc :: rest =>
    match ewise (fun a b => a / b) X sc with
    | Except.ok X2 => divScales rest X2
    | Except.error e => Except.error e

/-- The scale-multiplication loop of `inverse_transform` (lines 216-217),
over `self.scales_[::-1]`. -/
def mulScales (scales : List Tensor) (X : Tensor) : Except Err Tensor :=
  match scales with
  | [] => Except.ok X
  | sc :: rest =>
    match ewise (fun a b => a * b) X sc with
    | Except.ok X2 => mulScales rest X2
    | Except.error e => Except.error e

/-- The offset-addition loop of `inverse_transform` (lines 219-220). -/
def addOffsets (offs : List (Nat × Tensor)) (X : Tensor) : Except Err Tensor :=
  match offs with
  | [] => Except.ok X
  | p :: rest =>
    match ewise (fun a b => a + b) X p.2 with
    | Except.ok X2 => addOffsets rest X2
    | Except.error e => Except.error e

/-- `ProperCenterAndScale.transform` (lines 196-206).  Line 199 asserts
`self._check_center_compatibility(X) and self._check_center_compatibility(X)`
— the *center* check twice, short-circuited; `_check_scale_compatibility` is
never called.  Then each offset is subtracted and each scale divided out, in
fit order.  The method assigns no attribute, so the returned object state is
the input state. -/
def ProperCenterAndScale.transform (o : ProperCenterAndScale) (X : Tensor) :
    Except Err (Tensor × ProperCenterAndScale) :=
  match o.check_center_compatibility X with
  | Except.error e => Except.error e
  | Except.ok false => Except.error Err.assertionError
  | Except.ok true =>
    match o.check_center_compatibility X with
    | Except.error e => Except.error e
    | Except.ok false => Except.error Err.assertionError
    | Except.ok true =>
      match o.offsets_ with
      | none => Except.error Err.attributeError
      | some offs =>
        match subOffsets offs X with
        | Except.error e => Except.error e
        | Except.ok X1 =>
          match o.scales_ with
          | none => Except.error Err.attributeError
          | some scales =>
            match divScales scales X1 with
            | Except.error e => Except.error e
            | Except.ok X2 => Except.ok (X2, o)

/-- `ProperCenterAndScale.inverse_transform` (lines 211-221): the same
doubled center check, then multiplication by the scales in reverse order and
addition of the offsets back. -/
def ProperCenterAndScale.inverse_transform (o : ProperCenterAndScale) (X : Tensor) :
    Except Err (Tensor × ProperCenterAndScale) :=
  match o.check_center_compatibility X with
  | Except.error e => Except.error e
  | Except.ok false => Except.error Err.assertionError
  | Except.ok true =>
    match o.check_center_compatibility X with
    | Except.error e => Except.error e
    | Except.ok false => Except.error Err.assertionError
    | Except.ok true =>
      match o.scales_ with
      | none => Except.error Err.attributeError
      | some scales =>
        match mulScales scales.reverse X with
        | Except.error e => Except.error e
        | Except.ok X1 =>
          match o.offsets_ with
          | none => Except.error Err.attributeError
          | some offs =>
            match addOffsets offs X1 with
            | Except.error e => Except.error e
            | Except.ok X2 => Except.ok (X2, o)

/-- Claim C2 (code bug): `std` is claimed to equal the reference standard
deviation for every tensor, axis spec and admissible `ddof`; instead line 32
(`T.norm(tensor - T.mean) / sqrt(dofs)`) subtracts the backend's `mean`
function object from the tensor, so every call — including the reference
input `[0, 1]` with `axis=None`, `ddof=0`, whose reference value is 1/2 —
raises TypeError and never returns a standard deviation. -/
theorem std_always_raises_type_error (tensor : Tensor) (axis : AxisArg)
    (keepdims : Bool) (ddof : Int) :
    std tensor axis keepdims ddof = Except.error Err.typeError := rfl

/-- Claim C3 (code bug): on a (5,6,7)-shaped tensor, `std` over axis 0 is
claimed to return a (6,7)-shaped tensor (`keepdims=False`) or a
(1,6,7)-shaped one (`keepdims=True`); instead both calls raise TypeError,
and `keepdims` has no effect whatsoever on the function's behaviour. -/
theorem std_shape_keepdims_claim_fails :
    std ⟨[5, 6, 7], List.replicate 210 0⟩ (AxisArg.nat 0) false 0 =
      Except.error Err.typeError ∧
    std ⟨[5, 6, 7], List.replicate 210 0⟩ (AxisArg.nat 0) true 0 =
      Except.error Err.typeError ∧
    ∀ (t : Tensor) (a : AxisArg) (d : Int), std t a true d = std t a false d :=
  ⟨rfl, rfl, fun _ _ _ => rfl⟩

/-- Claim C4 (code bug): with `ddof` equal to the reduced sample count (axis
of length 5, `ddof=5`) the degrees of freedom come out as 0, and the claim
requires a ValueError-equivalent validation; the code has no such
validation — the call raises the same unconditional TypeError that every
`std` call raises (from `tensor - T.mean` on line 32), which is not a
ValueError and not specific to `ddof`. -/
theorem std_ddof_no_validation :
    stdDofs [5] (stdAxisList 1 (AxisArg.nat 0)) 5 = 0 ∧
    std ⟨[5], [1, 2, 3, 4, 5]⟩ (AxisArg.nat 0) false 5 = Except.error Err.typeError ∧
    std ⟨[5], [1, 2, 3, 4, 5]⟩ (AxisArg.nat 0) false 5 ≠ Except.error Err.valueError :=
  ⟨by decide, rfl, fun h => Err.noConfusion (Except.error.inj h)⟩

/-- Claim C5 counterexample: for shape (5,6,7) and the duplicated axis list
`[0, 0]`, the claim predicts the axis-0 length 5 to be counted twice in the
degrees-of-freedom product (giving 25); the membership filter
`i in range(len(shape)) if i in axis` counts it once, giving 5. -/
theorem stdDofs_duplicate_axis_not_double_counted :
    ¬ stdDofs [5, 6, 7] [0, 0] 0 = 5 * 5 := by decide

/-- Claim C5 as amended: duplicate axis entries are not rejected, and each
in-range axis index contributes exactly once to the degrees-of-freedom
product whatever its multiplicity: the computation is invariant under
deduplication of the axis list. -/
theorem stdDofs_dedup_invariant (shape : List Nat) (ax : List Nat) (d : Int) :
    stdDofs shape ax d = stdDofs shape ax.dedup d := by
  unfold stdDofs
  have hf : (List.range shape.length).filter (fun i => decide (i ∈ ax)) =
      (List.range shape.length).filter (fun i => decide (i ∈ ax.dedup)) := by
    apply List.filter_congr
    intro a _
    simp [List.mem_dedup]
  rw [hf]

/-- Claim C6 (code bug): `fit` is claimed to complete and return the fitted
estimator for every valid configuration; instead every call raises an
exception — with a non-iterable `center_across` the local `center_across` is
read before assignment on line 137, and otherwise the scale phase reads the
local `scale_within` before assignment (line 148 or 157) — so no call to
`fit` ever returns normally. -/
theorem fit_always_raises (o : ProperCenterAndScale) (X : Tensor) :
    ((ProperCenterAndScale.fit o X).2).isSome = true := by
  obtain ⟨ca, sw, w, ap, ds, off, sc⟩ := o
  cases ca with
  | single n => rfl
  | iter l =>
    unfold ProperCenterAndScale.fit
    dsimp only
    split
    · split
      · rfl
      · rfl
    · rfl

/-- Claim C7: when `center_across` is an iterable containing a duplicated
axis index, `fit` fails the assertion on line 135 (which compares the
deduplicated set's size against the input's length) and raises before any
attribute — in particular before `offsets_` — is assigned: the object state
is returned unchanged. -/
theorem fit_rejects_duplicate_center_axes (o : ProperCenterAndScale) (X : Tensor)
    (l : List Nat) (hca : o.center_across = AxisSpec.iter l) (hdup : ¬ l.Nodup) :
    ProperCenterAndScale.fit o X = (o, some Err.assertionError) := by
  have hlen : l.dedup.length ≠ l.length := by
    intro he
    exact hdup ((List.dedup_sublist l).eq_of_length he ▸ List.nodup_dedup l)
  unfold ProperCenterAndScale.fit
  rw [hca]
  dsimp only
  rw [if_neg hlen]

/-- Witness for claim C7 at `center_across=[0, 0]` on a concrete tensor. -/
theorem fit_rejects_duplicate_center_axes_witness :
    ProperCenterAndScale.fit
      ⟨AxisSpec.iter [0, 0], AxisSpec.iter [1], ScaleWeight.std, false, none, none, none⟩
      ⟨[2], [1, 3]⟩ =
    (⟨AxisSpec.iter [0, 0], AxisSpec.iter [1], ScaleWeight.std, false, none, none, none⟩,
     some Err.assertionError) :=
  fit_rejects_duplicate_center_axes _ _ [0, 0] rfl (by decide)

/-- The round-trip configuration of claim C1: `center_across={2}`,
`scale_within=[0]`, default `scale_weight="std"`, freshly constructed. -/
def roundtripEstimator : ProperCenterAndScale :=
  ⟨AxisSpec.iter [2], AxisSpec.iter [0], ScaleWeight.std, false, none, none, none⟩

/-- A concrete 2×2×2 fitting tensor for claim C1. -/
def roundtripX : Tensor := ⟨[2, 2, 2], [1, 2, 3, 4, 5, 6, 7, 8]⟩

/-- The object state a successful `fit` of `roundtripX` was meant to produce:
the fit-time shape, the axis-2 mean offset, and one (nonzero) scale of shape
(2,1,1) preserving axis 0. -/
def roundtripFitted : ProperCenterAndScale :=
  ⟨AxisSpec.iter [2], AxisSpec.iter [0], ScaleWeight.std, false, some [2, 2, 2],
   some [(2, meanAxis roundtripX 2)], some [⟨[2, 1, 1], [1, 1]⟩]⟩

/-- Claim C1 (code bug): the claimed identity
`inverse_transform(transform(X)) = X` on a fitted instance is unreachable.
First, `fit` on this configuration raises UnboundLocalError in the scale
phase (after assigning `data_shape_` and `offsets_`), so no fitted instance
ever arises.  Second, even on the object state a successful fit was meant to
produce, `transform` applied to the very fitting data raises AssertionError,
because `_check_center_compatibility` filters shape entries by *value*
(`s != axis`) instead of by position, and with center axis 2 it compares
`[]` (every dimension of X equals 2) against `[1]` (the offset's kept
axis). -/
theorem roundtrip_unreachable_fit_and_transform_raise :
    ProperCenterAndScale.fit roundtripEstimator roundtripX =
      ({ roundtripEstimator with
          data_shape_ := some [2, 2, 2],
          offsets_ := some [(2, meanAxis roundtripX 2)] },
       some Err.unboundLocalError) ∧
    ProperCenterAndScale.transform roundtripFitted roundtripX =
      Except.error Err.assertionError :=
  ⟨rfl, rfl⟩

/-- An object state whose fitted shape along the scale axis 1 is 5, while
the tensor passed to `transform` below has length 2 there; its offset was
chosen so that the (value-filtering) center check passes. -/
def scaleMismatchEstimator : ProperCenterAndScale :=
  ⟨AxisSpec.iter [0], AxisSpec.iter [1], ScaleWeight.std, false, some [1, 5],
   some [(0, ⟨[1, 2], [2, 3]⟩)], some [⟨[1, 2], [1, 1]⟩]⟩

/-- Claim C8 (code bug): `transform` is claimed to fail when X's length
along a `scale_within` axis differs from the fitted `data_shape_`; here the
fitted shape is (1,5), `scale_within=[1]`, and X has shape (1,2) — yet
`transform` returns a result, because line 199 asserts
`_check_center_compatibility` twice and never calls
`_check_scale_compatibility`; moreover `_check_scale_compatibility` itself
raises UnboundLocalError on every call (lines 187-191), so the scale
validation can never run. -/
theorem transform_scale_mismatch_not_rejected :
    (∃ Y, ProperCenterAndScale.transform scaleMismatchEstimator ⟨[1, 2], [1, 2]⟩ =
        Except.ok (Y, scaleMismatchEstimator)) ∧
    scaleMismatchEstimator.data_shape_ = some [1, 5] ∧
    (⟨[1, 2], [1, 2]⟩ : Tensor).shape.getD 1 0 = 2 ∧
    ∀ (o : ProperCenterAndScale) (X : Tensor),
      ProperCenterAndScale.check_scale_compatibility o X =
        Except.error Err.unboundLocalError := by
  refine ⟨⟨_, rfl⟩, rfl, rfl, fun o X => ?_⟩
  obtain ⟨ca, sw, w, ap, ds, off, sc⟩ := o
  cases sw with
  | single n => rfl
  | iter l => rfl

/-- Claim C9: `transform` does not mutate the fitted state — whenever it
returns a value at all, the returned object state is exactly the input
object state (`data_shape_`, `offsets_` and `scales_` included), the method
body assigning no attribute. -/
theorem transform_preserves_fitted_state (o : ProperCenterAndScale) (X : Tensor)
    (h : ∃ r, ProperCenterAndScale.transform o X = Except.ok r) :
    ∃ Y, ProperCenterAndScale.transform o X = Except.ok (Y, o) := by
  obtain ⟨⟨Y, o2⟩, hr⟩ := h
  have ho : o2 = o := by
    unfold ProperCenterAndScale.transform at hr
    repeat any_goals split at hr
    all_goals first
      | exact Except.noConfusion hr
      | · injection hr with h1
          injection h1 with ha hb
          exact hb.symm
  exact ⟨Y, ho ▸ hr⟩

/-- Witness for claim C9: a concrete compatible call on which `transform`
succeeds and returns the input state unchanged. -/
theorem transform_preserves_fitted_state_witness :
    ∃ Y, ProperCenterAndScale.transform
      ⟨AxisSpec.iter [0], AxisSpec.iter [1], ScaleWeight.std, false, some [1, 2],
       some [(0, ⟨[1, 2], [1, 1]⟩)], some [⟨[1, 2], [2, 2]⟩]⟩ ⟨[1, 2], [3, 5]⟩ =
      Except.ok (Y,
        ⟨AxisSpec.iter [0], AxisSpec.iter [1], ScaleWeight.std, false, some [1, 2],
         some [(0, ⟨[1, 2], [1, 1]⟩)], some [⟨[1, 2], [2, 2]⟩]⟩) :=
  transform_preserves_fitted_state _ _ ⟨_, rfl⟩

/-- Claim C10: `fit` is not atomic on error.  With a valid iterable
`center_across` (no duplicates, all axes in range), the call assigns
`data_shape_` and `offsets_` from the new tensor and then raises
UnboundLocalError in the scale phase, before `scales_` is ever assigned —
`scales_` keeps whatever value (or absence) it had before the call. -/
theorem fit_partial_update_before_scale_phase (o : ProperCenterAndScale)
    (X : Tensor) (l : List Nat) (hca : o.center_across = AxisSpec.iter l)
    (hnodup : l.Nodup) (hrange : ∀ a ∈ l, a < X.shape.length) :
    ProperCenterAndScale.fit o X =
      ({ o with data_shape_ := some X.shape,
                offsets_ := some (l.map (fun ax => (ax, meanAxis X ax))) },
       some Err.unboundLocalError) := by
  have hd : l.dedup = l := List.dedup_eq_self.mpr hnodup
  unfold ProperCenterAndScale.fit
  rw [hca]
  dsimp only
  rw [hd, if_pos rfl,
    if_pos (List.all_eq_true.mpr (fun a ha => decide_eq_true (hrange a ha)))]

/-- Witness for claim C10: fitting with `center_across=[0]` on a 1-D tensor
of length 2, starting from a state that already holds a previous `scales_`
value; the call errors, `data_shape_` and `offsets_` are updated, and the
previous `scales_` survives. -/
theorem fit_partial_update_before_scale_phase_witness :
    ProperCenterAndScale.fit
      ⟨AxisSpec.iter [0], AxisSpec.single 1, ScaleWeight.norm, false, none, none,
       some [⟨[1], [7]⟩]⟩ ⟨[2], [1, 3]⟩ =
      ({ (⟨AxisSpec.iter [0], AxisSpec.single 1, ScaleWeight.norm, false, none, none,
          some [⟨[1], [7]⟩]⟩ : ProperCenterAndScale) with
          data_shape_ := some (⟨[2], [1, 3]⟩ : Tensor).shape,
          offsets_ := some ([0].map (fun ax => (ax, meanAxis ⟨[2], [1, 3]⟩ ax))) },
       some Err.unboundLocalError) :=
  fit_partial_update_before_scale_phase _ _ [0] rfl (by decide) (by decide)
